import Mathlib

/-!
Verification of the graph execution-options core of a graph-capable database
driver (source file: lib/datastax/graph/options.js).

The JavaScript source is shallowly embedded as pure Lean functions:

- JavaScript tri-state optional values (absent/`undefined`, explicit `null`,
  concrete value) are the inductive `TriVal`.
- The custom payload (a JS object used as a string-to-Buffer map, with
  insertion-order preserving key update-or-append semantics) is an
  association list `Payload` with `pget` lookup and `pset`
  update-in-place-or-append.
- Byte buffers: the UTF-8 encoding of strings is abstracted as the
  constructor `Buffer.utf8` carrying the encoded string (the claims depend
  only on key presence and on which string was encoded, never on the UTF-8
  bytes themselves); the 8-byte big-endian signed encoding produced by
  `longBuffer` is modelled at byte level because one claim is about those
  bytes.
- Exceptions become `Except String`; thrown errors propagate through
  explicit match expressions, mirroring synchronous JS throw propagation.
- External collaborators that are part of the repository but not in the
  provided sources (profile manager, driver utils, the consistencies table)
  are modelled from the specification; each such definition is marked
  `Modelled from the spec:` in its doc comment.
- Mutable object identity, needed for the no-mutation frame claim, is
  modelled by a small explicit heap of payload objects (`PayloadHeap`).
-/

deriving instance DecidableEq for Except

/-- Tri-state JavaScript value: a field that is absent (`undefined`),
explicitly `null`, or holds a concrete value. -/
inductive TriVal (α : Type) where
  | undef
  | null
  | val (a : α)
deriving DecidableEq, Repr

/-- Boolean test for the absent (`undefined`) state, as used by the strict
comparisons `x === undefined` in the source. -/
def TriVal.isUndef {α : Type} : TriVal α → Bool
  | .undef => true
  | _ => false

/-- JavaScript truthiness of a possibly-absent string: `undefined`, `null`
and the empty string are falsy. -/
def TriVal.truthyStr : TriVal String → Bool
  | .val s => s ≠ ""
  | _ => false

/-- JavaScript truthiness of a possibly-absent object (such as a payload
map): any object, even empty, is truthy; `undefined` and `null` are falsy. -/
def TriVal.truthyObj {α : Type} : TriVal α → Bool
  | .val _ => true
  | _ => false

/-- Modelled from the spec: `utils.ifUndefined(v1, v2)` from the driver
utils (not under the provided sources) — the first argument unless it is
strictly `undefined`. -/
def ifUndefined {α : Type} (a b : TriVal α) : TriVal α :=
  match a with
  | .undef => b
  | x => x

/-- Modelled from the spec: `utils.ifUndefined3(v1, v2, v3)` — three-level
fallback on strict `undefined`. -/
def ifUndefined3 {α : Type} (a b c : TriVal α) : TriVal α :=
  ifUndefined a (ifUndefined b c)

/-- JavaScript `a || b` where `a` is a possibly-absent string and `b` is a
string: first truthy wins. -/
def jsOrStr (a : TriVal String) (b : String) : String :=
  match a with
  | .val s => if s = "" then b else s
  | _ => b

/-- View of an `Option` as a JS value: `none` is `undefined`. -/
def TriVal.ofOption {α : Type} : Option α → TriVal α
  | none => .undef
  | some a => .val a

/-- Binary payload value. `utf8 s` stands for the UTF-8 bytes of `s`
(produced by `utils.allocBufferFromString`); `int64be bs` is an explicit
byte list (produced by `longBuffer`). -/
inductive Buffer where
  | utf8 (s : String)
  | int64be (bytes : List Nat)
deriving DecidableEq, Repr

/-- Modelled from the spec: `utils.allocBufferFromString` encodes a string
as its UTF-8 bytes; the encoding itself is kept abstract. -/
def allocBufferFromString (s : String) : Buffer :=
  .utf8 s

/-- A custom payload map: string keys to binary values, in insertion
order, as a JS object holds them. -/
abbrev Payload := List (String × Buffer)

/-- Lookup of a payload key (JS property read). -/
def pget : Payload → String → Option Buffer
  | [], _ => none
  | e :: rest, k => if e.1 = k then some e.2 else pget rest k

/-- Assignment to a payload key (JS property write): updates the existing
entry in place, else appends, matching JS object key ordering. -/
def pset : Payload → String → Buffer → Payload
  | [], k, v => [(k, v)]
  | e :: rest, k, v => if e.1 = k then (k, v) :: rest else e :: pset rest k v

/-- The function `longBuffer` of the source: `Long.fromNumber` followed by
`Long.toBuffer`, i.e. the value reduced into 64-bit two-complement range
and written as 8 big-endian bytes. -/
def longBuffer (value : Int) : Buffer :=
  let u : Nat := (value % (2 : Int) ^ 64).toNat
  .int64be [u / 2 ^ 56 % 256, u / 2 ^ 48 % 256, u / 2 ^ 40 % 256, u / 2 ^ 32 % 256,
            u / 2 ^ 24 % 256, u / 2 ^ 16 % 256, u / 2 ^ 8 % 256, u % 256]

/-- Decoder for the wire format written by `longBuffer`: 8 big-endian bytes
read as a 64-bit two-complement signed integer. Follows the wire-format
words of the spec; used to state the round-trip claim. -/
def decodeInt64BE : Buffer → Option Int
  | .int64be bs =>
    let u : Nat := bs.foldl (fun a b => a * 256 + b) 0
    some (if u < 2 ^ 63 then (u : Int) else (u : Int) - 2 ^ 64)
  | _ => none

/-- Modelled from the spec: `proxyExecuteKey` exported by the
execution-options module (not under the provided sources), the payload key
carrying the proxy-execute identity. -/
def proxyExecuteKey : String := "ProxyExecute"

/-- ASCII uppercase of a character, as JS `toUpperCase` acts on the ASCII
camelCase registry keys. -/
def asciiUpperChar (c : Char) : Char :=
  if c.isLower then Char.ofNat (c.toNat - 32) else c

/-- ASCII uppercase of a string (JS `String.prototype.toUpperCase` on the
ASCII-only registry keys). -/
def asciiUpper (s : String) : String :=
  String.mk (s.data.map asciiUpperChar)

/-- Modelled from the spec: the canonical registry `types.consistencies`
(defined in the driver types module, not under the provided sources) —
name-to-numeric-code pairs for every consistency level, in declaration
order. -/
def consistencies : List (String × Nat) :=
  [("any", 0), ("one", 1), ("two", 2), ("three", 3), ("quorum", 4), ("all", 5),
   ("localQuorum", 6), ("eachQuorum", 7), ("serial", 8), ("localSerial", 9), ("localOne", 10)]

/-- Lookup in a code-to-name table (JS object indexed by number). -/
def nget : List (Nat × String) → Nat → Option String
  | [], _ => none
  | e :: rest, k => if e.1 = k then some e.2 else nget rest k

/-- Assignment in a code-to-name table (JS object property write). -/
def nset : List (Nat × String) → Nat → String → List (Nat × String)
  | [], k, v => [(k, v)]
  | e :: rest, k, v => if e.1 = k then (k, v) :: rest else e :: nset rest k v

/-- The function `loadConsistencyNames` of the source, as the table it
builds: every registry entry mapped to its uppercase name, then the four
Java-convention overrides assigned on top. -/
def consistencyNames : List (Nat × String) :=
  let base := consistencies.map (fun p => (p.2, asciiUpper p.1))
  nset (nset (nset (nset base 6 "LOCAL_QUORUM") 7 "EACH_QUORUM") 9 "LOCAL_SERIAL") 10 "LOCAL_ONE"

/-- The function `getConsistencyName` of the source: both no-value
sentinels (the loose comparison `consistency == undefined` matches `null`
and `undefined`) yield `undefined`; a registered code yields its name; an
unregistered (or falsy-named) code throws. -/
def getConsistencyName (consistency : TriVal Nat) : Except String (TriVal String) :=
  match consistency with
  | .undef => .ok .undef
  | .null => .ok .undef
  | .val n =>
    match nget consistencyNames n with
    | some name =>
      if name = "" then
        .error ("Consistency " ++ toString n ++ " not found, use values defined as properties in types.consistencies object")
      else
        .ok (.val name)
    | none =>
      .error ("Consistency " ++ toString n ++ " not found, use values defined as properties in types.consistencies object")

/-- The nested graph-options record an execution profile may carry. -/
structure ProfileGraphOptions where
  language : TriVal String
  source : TriVal String
  name : TriVal String
  readConsistency : TriVal Nat
  writeConsistency : TriVal Nat
deriving DecidableEq, Repr

/-- An execution profile as this core reads it: an identifying name, an
optional nested graph-options record, an optional retry policy (policies
are identified by an opaque numeric id, as only their identity matters
here), and an optional read timeout. -/
structure ExecutionProfile where
  name : String
  graphOptions : Option ProfileGraphOptions
  retry : Option Nat
  readTimeout : TriVal Int
deriving DecidableEq, Repr

/-- The empty graph-options record used when a profile has none
(`utils.emptyObject`): every field reads as `undefined`. -/
def emptyProfileGraphOptions : ProfileGraphOptions :=
  { language := .undef, source := .undef, name := .undef,
    readConsistency := .undef, writeConsistency := .undef }

/-- Client-wide graph base options. The language and source carry the
client-level defaults and are always strings. -/
structure GraphBaseOptions where
  language : String
  source : String
  name : TriVal String
  executeAs : TriVal String
  readConsistency : TriVal Nat
  writeConsistency : TriVal Nat
  retry : Option Nat
  readTimeout : TriVal Int
deriving DecidableEq, Repr

/-- The per-call user query options relevant to the graph merge. -/
structure GraphQueryOptions where
  executionProfile : Option String := none
  customPayload : TriVal Payload := .undef
  graphLanguage : TriVal String := .undef
  graphSource : TriVal String := .undef
  executeAs : TriVal String := .undef
  graphName : TriVal String := .undef
  graphReadConsistency : TriVal Nat := .undef
  graphWriteConsistency : TriVal Nat := .undef
  readTimeout : TriVal Int := .undef
  retry : TriVal Nat := .undef
deriving DecidableEq, Repr

/-- The `options` argument of `createQueryOptions`: absent (or `null`), a
callback function mistakenly in options position, or an options object. -/
inductive OptionsArg where
  | none
  | callback
  | opts (o : GraphQueryOptions)
deriving DecidableEq, Repr

/-- The profile name the source passes to `getProfile`: the expression
`options && options.executionProfile` is `undefined` unless an options
object with an executionProfile is given. -/
def OptionsArg.profileName : OptionsArg → Option String
  | .opts o => o.executionProfile
  | _ => Option.none

/-- The cached default option set computed once per profile by
`createDefaultOptions`. -/
structure DefaultGraphOptions where
  customPayload : Payload
  graphLanguage : String
  graphSource : String
  retry : Option Nat
  readTimeout : TriVal Int
deriving DecidableEq, Repr

/-- The merged options object produced on the paths that extend the user
options over the profile defaults (lines 87-120 of the source). -/
structure MergedOptions where
  executionProfile : Option String
  customPayload : Payload
  graphLanguage : TriVal String
  graphSource : TriVal String
  executeAs : TriVal String
  graphName : TriVal String
  graphReadConsistency : TriVal Nat
  graphWriteConsistency : TriVal Nat
  readTimeout : TriVal Int
  retry : TriVal Nat
deriving DecidableEq, Repr

/-- The possible results of `createQueryOptions`: the untouched user
argument (unknown profile), the cached per-profile default set (no options
object), or a merged options object. -/
inductive ResolvedOptions where
  | userUnchanged (o : OptionsArg)
  | profileDefaults (d : DefaultGraphOptions)
  | merged (m : MergedOptions)
deriving DecidableEq, Repr

/-- Modelled from the spec: the profile manager collaborator — a profile
list, the default profile, and the per-profile memoized slot for computed
graph options (keyed by profile identity). -/
structure ProfileManager where
  profiles : List ExecutionProfile
  defaultProfile : ExecutionProfile
  graphOptionsCache : List (ExecutionProfile × DefaultGraphOptions)
deriving DecidableEq, Repr

/-- Modelled from the spec: `profileManager.getProfile(name | undefined)`
returns the default profile when no name is given, else the profile of
that name if any. -/
def ProfileManager.getProfile (pm : ProfileManager) (name : Option String) : Option ExecutionProfile :=
  match name with
  | Option.none => some pm.defaultProfile
  | some n => pm.profiles.find? (fun p => p.name = n)

/-- Lookup in the per-profile memoized cache. -/
def cacheFind : List (ExecutionProfile × DefaultGraphOptions) → ExecutionProfile → Option DefaultGraphOptions
  | [], _ => Option.none
  | e :: rest, p => if e.1 = p then some e.2 else cacheFind rest p

/-- The profile manager after storing a computed default set for a
profile. -/
def cacheInsert (pm : ProfileManager) (p : ExecutionProfile) (d : DefaultGraphOptions) : ProfileManager :=
  { pm with graphOptionsCache := (p, d) :: pm.graphOptionsCache }

/-- Modelled from the spec: `profileManager.getOrCreateGraphOptions(profile,
factory)` — return the cached value for the profile if present, otherwise
run the factory and cache its result; a throwing factory leaves the slot
empty. -/
def getOrCreateGraphOptions (pm : ProfileManager) (profile : ExecutionProfile)
    (factory : Unit → Except String DefaultGraphOptions) :
    Except String (DefaultGraphOptions × ProfileManager) :=
  match cacheFind pm.graphOptionsCache profile with
  | some d => .ok (d, pm)
  | Option.none =>
    match factory () with
    | .ok d => .ok (d, cacheInsert pm profile d)
    | .error e => .error e

/-- The function `setPayloadKey` of the source, acting on the payload map
it mutates: `null` suppresses the write entirely; a present value is
encoded and assigned; an absent value copies the default entry when the
defaults hold one (the stored values are Buffer objects, which are always
truthy, so the JS truthiness test on the default entry is key presence). -/
def setPayloadKey {α : Type} (target defaults : Payload) (key : String)
    (value : TriVal α) (converter : α → Buffer) : Payload :=
  match value with
  | .null => target
  | .val a => pset target key (converter a)
  | .undef =>
    match pget defaults key with
    | some b => pset target key b
    | Option.none => target

/-- The source pattern `if (x) { payload[key] = allocBufferFromString(x) }`
for a possibly-absent string `x` (used for the proxy-execute identity and
the graph name in `createDefaultOptions`): write the key only when the
value is truthy. -/
def psetIfTruthy (payload : Payload) (key : String) (x : TriVal String) : Payload :=
  match x with
  | .val s => if s ≠ "" then pset payload key (allocBufferFromString s) else payload
  | _ => payload

/-- The source pattern of lines 160-169: when a consistency value is not
strictly `undefined`, resolve its name and write the key. A `null`
consistency reaches `allocBufferFromString(undefined)`, which throws a
TypeError, and an unknown code throws from `getConsistencyName`. -/
def psetConsistency (payload : Payload) (key : String) (c : TriVal Nat) : Except String Payload :=
  match c with
  | .undef => .ok payload
  | c =>
    match getConsistencyName c with
    | .error e => .error e
    | .ok (.val s) => .ok (pset payload key (allocBufferFromString s))
    | .ok _ => .error "TypeError: Expected string value"

/-- The source pattern of lines 171-174: write the request-timeout key
only when the resolved read timeout is a number strictly greater than
zero. -/
def psetPositiveTimeout (payload : Payload) (rt : TriVal Int) : Payload :=
  match rt with
  | .val n => if n > 0 then pset payload "request-timeout" (longBuffer n) else payload
  | _ => payload

/-- The factory `createDefaultOptions` of the source (lines 133-176):
computes the default graph options and pre-encoded payload for a profile.
Throw sites (unknown consistency code, and the `allocBufferFromString`
TypeError on a non-string name produced by a `null` consistency) are
explicit error returns. -/
def createDefaultOptions (pm : ProfileManager) (baseOptions : GraphBaseOptions)
    (defaultRetryPolicy : Option Nat) (profile : ExecutionProfile) :
    Except String DefaultGraphOptions :=
  let profileOptions := profile.graphOptions.getD emptyProfileGraphOptions
  let defaultProfile := pm.defaultProfile
  let graphLanguage := jsOrStr profileOptions.language baseOptions.language
  let graphSource := jsOrStr profileOptions.source baseOptions.source
  let payload : Payload :=
    [("graph-language", allocBufferFromString graphLanguage),
     ("graph-source", allocBufferFromString graphSource)]
  let retry : Option Nat :=
    if profile ≠ defaultProfile then
      profile.retry.orElse (fun _ => baseOptions.retry)
    else
      -- The retry policy materialized on the default profile is ignored:
      -- the caller-supplied default graph retry policy wins over it.
      defaultRetryPolicy.orElse (fun _ => baseOptions.retry)
  let payload := psetIfTruthy payload proxyExecuteKey baseOptions.executeAs
  let name := ifUndefined profileOptions.name baseOptions.name
  let payload := psetIfTruthy payload "graph-name" name
  let readConsistency := ifUndefined profileOptions.readConsistency baseOptions.readConsistency
  match psetConsistency payload "graph-read-consistency" readConsistency with
  | .error e => .error e
  | .ok payload =>
  let writeConsistency := ifUndefined profileOptions.writeConsistency baseOptions.writeConsistency
  match psetConsistency payload "graph-write-consistency" writeConsistency with
  | .error e => .error e
  | .ok payload =>
  let readTimeout := ifUndefined3 profile.readTimeout defaultProfile.readTimeout baseOptions.readTimeout
  let payload := psetPositiveTimeout payload readTimeout
  .ok { customPayload := payload, graphLanguage := graphLanguage, graphSource := graphSource,
        retry := retry, readTimeout := readTimeout }

/-- The function `getDefaultGraphOptions` of the source (lines 132-177):
the per-profile memoized wrapper around `createDefaultOptions`. -/
def getDefaultGraphOptions (pm : ProfileManager) (baseOptions : GraphBaseOptions)
    (defaultRetryPolicy : Option Nat) (profile : ExecutionProfile) :
    Except String (DefaultGraphOptions × ProfileManager) :=
  getOrCreateGraphOptions pm profile (fun _ => createDefaultOptions pm baseOptions defaultRetryPolicy profile)

/-- Lines 77-85 of the source: true exactly when the user supplied no
parameter that would make the custom payload differ from the cached
payload of the profile (the first four tests are JS truthiness, the last
four strict comparisons with `undefined`). -/
def noGraphPayloadOptions (o : GraphQueryOptions) : Bool :=
  !o.customPayload.truthyObj && !o.graphLanguage.truthyStr && !o.graphSource.truthyStr &&
  !o.executeAs.truthyStr && o.graphName.isUndef && o.graphReadConsistency.isUndef &&
  o.graphWriteConsistency.isUndef && TriVal.isUndef o.readTimeout

/-- Lines 87-93 of the source: `utils.extend` of the user options over the
default scalar fields. The driver extend copies every source field that is
not strictly `undefined`, so its per-field effect is `ifUndefined` of the
user value over the default. The payload field is assigned afterwards by
the caller and starts empty here. -/
def extendWithDefaults (d : DefaultGraphOptions) (o : GraphQueryOptions) : MergedOptions :=
  { executionProfile := o.executionProfile
    customPayload := []
    graphLanguage := ifUndefined o.graphLanguage (.val d.graphLanguage)
    graphSource := ifUndefined o.graphSource (.val d.graphSource)
    executeAs := o.executeAs
    graphName := o.graphName
    graphReadConsistency := o.graphReadConsistency
    graphWriteConsistency := o.graphWriteConsistency
    readTimeout := ifUndefined o.readTimeout d.readTimeout
    retry := ifUndefined o.retry (TriVal.ofOption d.retry) }

/-- Lines 101-107 of the source: the payload the rebuild starts from — an
empty map when the user supplied no (truthy) custom payload, else a
shallow clone of the user payload (a copy holding the same entries). -/
def userPayloadStart (o : GraphQueryOptions) : Payload :=
  match o.customPayload with
  | .val p => p
  | _ => []

/-- Lines 108-119 of the source: the seven `setPayloadKey` writes of the
payload rebuild, with the two consistency names already resolved (their
resolution happens between the writes in the source; hoisting it is
observationally equal because the computations are pure and the writes
are map updates at distinct keys). -/
def rebuildPayload (d : DefaultGraphOptions) (o : GraphQueryOptions)
    (rcName wcName : TriVal String) : Payload :=
  let merged := extendWithDefaults d o
  let target0 := userPayloadStart o
  let p1 := setPayloadKey target0 d.customPayload proxyExecuteKey merged.executeAs allocBufferFromString
  let p2 := setPayloadKey p1 d.customPayload "graph-language" merged.graphLanguage allocBufferFromString
  let p3 := setPayloadKey p2 d.customPayload "graph-source" merged.graphSource allocBufferFromString
  let p4 := setPayloadKey p3 d.customPayload "graph-name" merged.graphName allocBufferFromString
  let p5 := setPayloadKey p4 d.customPayload "graph-read-consistency" rcName allocBufferFromString
  let p6 := setPayloadKey p5 d.customPayload "graph-write-consistency" wcName allocBufferFromString
  let rtValue : TriVal Int :=
    match merged.readTimeout with
    | .val n => if n > 0 then .val n else .null
    | _ => .null
  setPayloadKey p6 d.customPayload "request-timeout" rtValue longBuffer

/-- Lines 71-120 of `createQueryOptions`, after the profile defaults have
been obtained: the fast-path flag, the shallow field merge, the
payload-reuse fast path, and the payload rebuild. -/
def mergeWithDefaults (d : DefaultGraphOptions) (options : OptionsArg) :
    Except String ResolvedOptions :=
  match options with
  | .none => .ok (.profileDefaults d)
  | .callback => .ok (.profileDefaults d)
  | .opts o =>
    let merged : MergedOptions := extendWithDefaults d o
    if noGraphPayloadOptions o then
      -- Reuse the same customPayload instance of the cached defaults.
      .ok (.merged { merged with customPayload := d.customPayload })
    else
      match getConsistencyName merged.graphReadConsistency with
      | .error e => .error e
      | .ok rcName =>
        match getConsistencyName merged.graphWriteConsistency with
        | .error e => .error e
        | .ok wcName =>
          .ok (.merged { merged with customPayload := rebuildPayload d o rcName wcName })

/-- The function `createQueryOptions` of the source (lines 64-121). Errors
carry the profile-manager state at throw time, mirroring that a JS throw
does not roll back mutations already performed. -/
def createQueryOptions (pm : ProfileManager) (baseOptions : GraphBaseOptions)
    (defaultRetryPolicy : Option Nat) (options : OptionsArg) :
    Except (String × ProfileManager) (ResolvedOptions × ProfileManager) :=
  match pm.getProfile options.profileName with
  | Option.none =>
    -- Let the core driver deal with a specified profile not being found.
    .ok (.userUnchanged options, pm)
  | some profile =>
    match getDefaultGraphOptions pm baseOptions defaultRetryPolicy profile with
    | .error e => .error (e, pm)
    | .ok (d, pm1) =>
      match mergeWithDefaults d options with
      | .error e => .error (e, pm1)
      | .ok r => .ok (r, pm1)

/-- Payload carried by a resolved outcome, when it has one. -/
def ResolvedOptions.payloadOf : ResolvedOptions → Option Payload
  | .userUnchanged _ => Option.none
  | .profileDefaults d => some d.customPayload
  | .merged m => some m.customPayload

/-- Resolved read timeout of an outcome (the merged scalar field). -/
def ResolvedOptions.readTimeoutOf : ResolvedOptions → TriVal Int
  | .userUnchanged _ => .undef
  | .profileDefaults d => d.readTimeout
  | .merged m => m.readTimeout

/-- Payload of a full `createQueryOptions` result, when one was produced. -/
def payloadOfResult (r : Except (String × ProfileManager) (ResolvedOptions × ProfileManager)) :
    Option Payload :=
  match r with
  | .ok (res, _) => res.payloadOf
  | .error _ => Option.none

/-- Resolved read timeout of a full `createQueryOptions` result. -/
def rtOfResult (r : Except (String × ProfileManager) (ResolvedOptions × ProfileManager)) :
    Option (TriVal Int) :=
  match r with
  | .ok (res, _) => some res.readTimeoutOf
  | .error _ => Option.none

/-- Profile-manager state of a successful `createQueryOptions` result. -/
def stateOfResult (r : Except (String × ProfileManager) (ResolvedOptions × ProfileManager)) :
    Option ProfileManager :=
  match r with
  | .ok (_, pm) => some pm
  | .error _ => Option.none

/-- Observable outcome of a `createQueryOptions` result, with the
profile-manager states projected away. -/
def resolvedOf (r : Except (String × ProfileManager) (ResolvedOptions × ProfileManager)) :
    Except String ResolvedOptions :=
  match r with
  | .ok (res, _) => .ok res
  | .error (e, _) => .error e

/-- A cache whose every entry is what the factory computes for that
profile: the invariant the memoized slot maintains. -/
def CacheConsistent (pm : ProfileManager) (baseOptions : GraphBaseOptions)
    (defaultRetryPolicy : Option Nat) : Prop :=
  ∀ q dq, cacheFind pm.graphOptionsCache q = some dq →
    createDefaultOptions pm baseOptions defaultRetryPolicy q = .ok dq

/-! ## Basic payload lemmas -/

theorem pget_pset_self (p : Payload) (k : String) (v : Buffer) :
    pget (pset p k v) k = some v := by
  induction p with
  | nil => simp [pset, pget]
  | cons e rest ih =>
    by_cases h : e.1 = k
    · simp [pset, h, pget]
    · simp [pset, h, pget, ih]

theorem pget_pset_ne (p : Payload) (k k' : String) (v : Buffer) (h : k' ≠ k) :
    pget (pset p k v) k' = pget p k' := by
  induction p with
  | nil => simp [pset, pget, Ne.symm h]
  | cons e rest ih =>
    by_cases he : e.1 = k
    · subst he
      simp [pset, pget, Ne.symm h]
    · simp [pset, he, pget, ih]

theorem pget_pset_isSome (p : Payload) (k k' : String) (v : Buffer)
    (h : (pget p k').isSome = true) : (pget (pset p k v) k').isSome = true := by
  by_cases hk : k' = k
  · subst hk; simp [pget_pset_self]
  · rw [pget_pset_ne p k k' v hk]; exact h

theorem setPayloadKey_pget_other {α : Type} (t d : Payload) (key k : String)
    (v : TriVal α) (conv : α → Buffer) (h : k ≠ key) :
    pget (setPayloadKey t d key v conv) k = pget t k := by
  cases v with
  | null => rfl
  | val a => exact pget_pset_ne t key k (conv a) h
  | undef =>
    unfold setPayloadKey
    cases hd : pget d key with
    | none => rfl
    | some b => exact pget_pset_ne t key k b h

theorem setPayloadKey_pget_isSome {α : Type} (t d : Payload) (key k : String)
    (v : TriVal α) (conv : α → Buffer) (h : (pget t k).isSome = true) :
    (pget (setPayloadKey t d key v conv) k).isSome = true := by
  cases v with
  | null => exact h
  | val a => exact pget_pset_isSome t key k (conv a) h
  | undef =>
    unfold setPayloadKey
    cases hd : pget d key with
    | none => exact h
    | some b => exact pget_pset_isSome t key k b h

/-! ## Concrete fixtures used by witnesses and counterexamples -/

/-- A default execution profile carrying no graph options of its own. -/
def fixtureProfile : ExecutionProfile :=
  { name := "default", graphOptions := Option.none, retry := Option.none, readTimeout := .undef }

/-- Base graph options with only the client-level language and source. -/
def fixtureBase : GraphBaseOptions :=
  { language := "gremlin-groovy", source := "g", name := .undef, executeAs := .undef,
    readConsistency := .undef, writeConsistency := .undef, retry := Option.none, readTimeout := .undef }

/-- Base graph options that also configure a graph name and read and write
consistency defaults. -/
def fixtureBaseFull : GraphBaseOptions :=
  { fixtureBase with name := .val "base-graph", readConsistency := .val 1, writeConsistency := .val 6 }

/-- A profile manager holding only the default profile, with a cold cache. -/
def fixturePM : ProfileManager :=
  { profiles := [fixtureProfile], defaultProfile := fixtureProfile, graphOptionsCache := [] }

/-- The default option set `createDefaultOptions` computes for the fixture
profile over `fixtureBase`. -/
def fixtureDefaults : DefaultGraphOptions :=
  { customPayload := [("graph-language", Buffer.utf8 "gremlin-groovy"), ("graph-source", Buffer.utf8 "g")],
    graphLanguage := "gremlin-groovy", graphSource := "g",
    retry := Option.none, readTimeout := .undef }

/-- The fixture profile manager after its cache slot has been filled for
the fixture profile over `fixtureBase`. -/
def fixturePMCached : ProfileManager :=
  { fixturePM with graphOptionsCache := [(fixtureProfile, fixtureDefaults)] }

/-! ## C4: unknown execution profile returns the user options unchanged -/

/-- C4: when the named execution profile is unknown to the profile
manager, `createQueryOptions` returns the user options unchanged, with the
profile-manager state untouched (no defaults computed, no payload built)
and no error. -/
theorem c4_unknown_profile_passthrough (pm : ProfileManager) (base : GraphBaseOptions)
    (drp : Option Nat) (o : GraphQueryOptions)
    (h : pm.getProfile o.executionProfile = Option.none) :
    createQueryOptions pm base drp (.opts o) = .ok (.userUnchanged (.opts o), pm) := by
  unfold createQueryOptions
  simp [OptionsArg.profileName, h]

/-- Witness for C4 at a concrete unknown profile name. -/
theorem c4_unknown_profile_passthrough_witness :
    fixturePM.getProfile (some "nonexistent") = Option.none ∧
    createQueryOptions fixturePM fixtureBase Option.none
        (.opts { executionProfile := some "nonexistent" }) =
      .ok (.userUnchanged (.opts { executionProfile := some "nonexistent" }), fixturePM) :=
  ⟨by decide,
   c4_unknown_profile_passthrough fixturePM fixtureBase Option.none
     { executionProfile := some "nonexistent" } (by decide)⟩

/-! ## C5: the three-way policy of setPayloadKey -/

/-- C5: observable effect of `setPayloadKey` on its key, in the order the
source checks: a `null` value leaves the target entry for the key exactly
as it was (in particular absent if it was absent, even when the defaults
contain the key); a defined value (any encodable value, including the
empty string) is encoded and stored; an absent value copies the default
entry when present and otherwise leaves the key unset. -/
theorem c5_setPayloadKey_policy {α : Type} (t d : Payload) (key : String)
    (conv : α → Buffer) (a : α) :
    pget (setPayloadKey t d key TriVal.null conv) key = pget t key ∧
    pget (setPayloadKey t d key (TriVal.val a) conv) key = some (conv a) ∧
    pget (setPayloadKey t d key TriVal.undef conv) key =
      ((pget d key).orElse fun _ => pget t key) := by
  refine ⟨rfl, pget_pset_self t key (conv a), ?_⟩
  unfold setPayloadKey
  cases hd : pget d key with
  | none => simp [Option.orElse]
  | some b => simp [Option.orElse, pget_pset_self]

/-! ## C6: the consistency-name registry -/

/-- Expected canonical uppercase name of a registry key, following the
words of the spec: the four multi-word names are written with an
underscore, every other name is the plain uppercase of its key. -/
def canonicalConsName (n : String) : String :=
  if n = "localQuorum" then "LOCAL_QUORUM"
  else if n = "eachQuorum" then "EACH_QUORUM"
  else if n = "localSerial" then "LOCAL_SERIAL"
  else if n = "localOne" then "LOCAL_ONE"
  else asciiUpper n

/-- C6: for every code of the canonical registry, `getConsistencyName`
returns the uppercase name, with the four special codes mapped exactly to
LOCAL_QUORUM, EACH_QUORUM, LOCAL_SERIAL and LOCAL_ONE, and both no-value
sentinels are returned as the no-value result without error. -/
theorem c6_registry_names :
    (consistencies.all fun p =>
        decide (getConsistencyName (.val p.2) = .ok (.val (canonicalConsName p.1)))) = true ∧
    nget consistencyNames 6 = some "LOCAL_QUORUM" ∧
    nget consistencyNames 7 = some "EACH_QUORUM" ∧
    nget consistencyNames 9 = some "LOCAL_SERIAL" ∧
    nget consistencyNames 10 = some "LOCAL_ONE" ∧
    getConsistencyName .undef = .ok .undef ∧
    getConsistencyName .null = .ok .undef := by
  decide

/-! ## Counterexamples for C1, C8 and C9 -/

/-- Counterexample to C1 as stated. For four of the five graph-specific
scalar fields an explicit `null` does not make the wire key absent when a
default supplies it: a `null` read or write consistency is turned into
`undefined` by `getConsistencyName` and therefore inherits the default
entry; a `null` graph language or source is falsy, so on an
otherwise-override-free call the fast path returns the cached default
payload with the key present. -/
theorem c1_counterexample :
    (payloadOfResult (createQueryOptions fixturePM fixtureBaseFull Option.none
        (.opts { graphReadConsistency := .null }))).bind
      (fun P => pget P "graph-read-consistency") = some (Buffer.utf8 "ONE") ∧
    (payloadOfResult (createQueryOptions fixturePM fixtureBaseFull Option.none
        (.opts { graphWriteConsistency := .null }))).bind
      (fun P => pget P "graph-write-consistency") = some (Buffer.utf8 "LOCAL_QUORUM") ∧
    (payloadOfResult (createQueryOptions fixturePM fixtureBase Option.none
        (.opts { graphLanguage := .null }))).bind
      (fun P => pget P "graph-language") = some (Buffer.utf8 "gremlin-groovy") ∧
    (payloadOfResult (createQueryOptions fixturePM fixtureBase Option.none
        (.opts { graphSource := .null }))).bind
      (fun P => pget P "graph-source") = some (Buffer.utf8 "g") := by
  decide

/-- Counterexample to C8 as stated. A user-supplied custom payload that
already contains a `request-timeout` entry keeps that entry when the
resolved read timeout is not strictly positive: the suppressing `null`
passed to `setPayloadKey` does not delete an existing target entry. -/
theorem c8_counterexample :
    rtOfResult (createQueryOptions fixturePM fixtureBase Option.none
        (.opts { customPayload := .val [("request-timeout", Buffer.utf8 "junk")],
                 readTimeout := .val (-1) })) = some (.val (-1)) ∧
    (payloadOfResult (createQueryOptions fixturePM fixtureBase Option.none
        (.opts { customPayload := .val [("request-timeout", Buffer.utf8 "junk")],
                 readTimeout := .val (-1) }))).bind
      (fun P => pget P "request-timeout") = some (Buffer.utf8 "junk") := by
  decide

/-- Counterexample to C9 as stated. A merged result was produced (the
profile was found), yet the final payload has no graph-language entry,
because the caller passed an explicit `null` graph language together with
another override that forces the payload rebuild; likewise for the graph
source. -/
theorem c9_counterexample :
    (payloadOfResult (createQueryOptions fixturePM fixtureBase Option.none
        (.opts { graphLanguage := .null, graphName := .val "g1" }))).isSome = true ∧
    (payloadOfResult (createQueryOptions fixturePM fixtureBase Option.none
        (.opts { graphLanguage := .null, graphName := .val "g1" }))).bind
      (fun P => pget P "graph-language") = Option.none ∧
    (payloadOfResult (createQueryOptions fixturePM fixtureBase Option.none
        (.opts { graphSource := .null, graphName := .val "g1" }))).bind
      (fun P => pget P "graph-source") = Option.none := by
  decide

/-! ## C1 amended: explicit null graphName suppresses the graph-name key -/

theorem setPayloadKey_null {α : Type} (t d : Payload) (key : String) (conv : α → Buffer) :
    setPayloadKey t d key TriVal.null conv = t := rfl

theorem pget_rebuildPayload_name_null (d : DefaultGraphOptions) (o : GraphQueryOptions)
    (rcName wcName : TriVal String) (h : o.graphName = TriVal.null) :
    pget (rebuildPayload d o rcName wcName) "graph-name" =
      pget (userPayloadStart o) "graph-name" := by
  simp only [rebuildPayload]
  rw [setPayloadKey_pget_other _ _ _ _ _ _ (by decide)]
  rw [setPayloadKey_pget_other _ _ _ _ _ _ (by decide)]
  rw [setPayloadKey_pget_other _ _ _ _ _ _ (by decide)]
  simp only [extendWithDefaults, h, setPayloadKey_null]
  rw [setPayloadKey_pget_other _ _ _ _ _ _ (by decide)]
  rw [setPayloadKey_pget_other _ _ _ _ _ _ (by decide)]
  rw [setPayloadKey_pget_other _ _ _ _ _ _ (by decide)]

/-- C1 as amended: of the five graph-specific scalar fields, the explicit
suppress sentinel is honored for graphName — whenever the caller passes
`null` for graphName (and the caller-supplied custom payload, if any, does
not itself carry the key), the resolved payload holds no graph-name entry,
even when the profile or base defaults would supply one. For the other
four fields the sentinel does not suppress (see the counterexample). -/
theorem c1_amended_null_graphName_suppresses (pm : ProfileManager) (base : GraphBaseOptions)
    (drp : Option Nat) (o : GraphQueryOptions)
    (h1 : o.graphName = TriVal.null)
    (h2 : ∀ pl, o.customPayload = TriVal.val pl → pget pl "graph-name" = Option.none) :
    (payloadOfResult (createQueryOptions pm base drp (.opts o))).bind
      (fun P => pget P "graph-name") = Option.none := by
  have hflag : noGraphPayloadOptions o = false := by
    simp [noGraphPayloadOptions, h1, TriVal.isUndef]
  cases hgp : pm.getProfile o.executionProfile with
  | none =>
    simp [createQueryOptions, OptionsArg.profileName, hgp, payloadOfResult, ResolvedOptions.payloadOf]
  | some p =>
    cases hd : getDefaultGraphOptions pm base drp p with
    | error e =>
      simp [createQueryOptions, OptionsArg.profileName, hgp, hd, payloadOfResult]
    | ok dpm =>
      obtain ⟨d, pm1⟩ := dpm
      cases hrc : getConsistencyName o.graphReadConsistency with
      | error e =>
        simp [createQueryOptions, OptionsArg.profileName, hgp, hd, mergeWithDefaults, hflag,
              extendWithDefaults, hrc, payloadOfResult]
      | ok rcName =>
        cases hwc : getConsistencyName o.graphWriteConsistency with
        | error e =>
          simp [createQueryOptions, OptionsArg.profileName, hgp, hd, mergeWithDefaults, hflag,
                extendWithDefaults, hrc, hwc, payloadOfResult]
        | ok wcName =>
          simp only [createQueryOptions, OptionsArg.profileName, hgp, hd, mergeWithDefaults, hflag,
                extendWithDefaults, hrc, hwc, payloadOfResult, ResolvedOptions.payloadOf,
                Bool.false_eq_true, if_false, Option.some_bind]
          rw [pget_rebuildPayload_name_null d o rcName wcName h1]
          cases hcp : o.customPayload with
          | val pl => simpa [userPayloadStart, hcp] using h2 pl hcp
          | undef => simp [userPayloadStart, hcp, pget]
          | null => simp [userPayloadStart, hcp, pget]

/-- Witness for the amended C1: with a base-configured graph name, a
`null` graphName leaves the resolved payload without the graph-name key. -/
theorem c1_amended_null_graphName_suppresses_witness :
    ({ graphName := .null } : GraphQueryOptions).graphName = TriVal.null ∧
    (payloadOfResult (createQueryOptions fixturePM fixtureBaseFull Option.none
        (.opts { graphName := .null }))).bind
      (fun P => pget P "graph-name") = Option.none :=
  ⟨rfl, c1_amended_null_graphName_suppresses fixturePM fixtureBaseFull Option.none
    { graphName := .null } rfl (fun _ hpl => nomatch hpl)⟩

/-! ## C2: the asymmetric retry-policy resolution -/

/-- C2: the cached per-profile retry policy is resolved asymmetrically by
profile kind — for a non-default profile it is the profile retry if set,
else the base retry; for the default profile it is the caller-supplied
default graph retry policy if set, else the base retry, the materialized
retry of the default profile itself being ignored. -/
theorem c2_retry_asymmetry (pm : ProfileManager) (base : GraphBaseOptions) (drp : Option Nat)
    (profile : ExecutionProfile) (d : DefaultGraphOptions)
    (h : createDefaultOptions pm base drp profile = .ok d) :
    d.retry = if profile = pm.defaultProfile
              then drp.orElse (fun _ => base.retry)
              else profile.retry.orElse (fun _ => base.retry) := by
  simp only [createDefaultOptions] at h
  split at h
  · exact absurd h (by simp)
  · split at h
    · exact absurd h (by simp)
    · simp only [Except.ok.injEq] at h
      subst h
      by_cases hp : profile = pm.defaultProfile <;> simp [hp]

/-- Witness for C2: the default profile with no retry configured anywhere
on it and a caller-supplied default graph retry policy resolves to that
policy. -/
theorem c2_retry_asymmetry_witness :
    createDefaultOptions fixturePM fixtureBase (some 7) fixtureProfile =
      .ok { fixtureDefaults with retry := some 7 } ∧
    ({ fixtureDefaults with retry := some 7 } : DefaultGraphOptions).retry =
      if fixtureProfile = fixturePM.defaultProfile
      then (some 7).orElse (fun _ => fixtureBase.retry)
      else fixtureProfile.retry.orElse (fun _ => fixtureBase.retry) :=
  ⟨by decide,
   c2_retry_asymmetry fixturePM fixtureBase (some 7) fixtureProfile _ (by decide)⟩

/-! ## Profile-manager cache lemmas -/

theorem getDefaultGraphOptions_ok (pm : ProfileManager) (base : GraphBaseOptions)
    (drp : Option Nat) (p : ExecutionProfile) (d : DefaultGraphOptions) (pm1 : ProfileManager)
    (h : getDefaultGraphOptions pm base drp p = .ok (d, pm1)) :
    pm1.profiles = pm.profiles ∧ pm1.defaultProfile = pm.defaultProfile ∧
    cacheFind pm1.graphOptionsCache p = some d := by
  unfold getDefaultGraphOptions getOrCreateGraphOptions at h
  split at h
  · rename_i d' hfind
    simp only [Except.ok.injEq, Prod.mk.injEq] at h
    obtain ⟨h1, h2⟩ := h
    subst h1
    subst h2
    exact ⟨rfl, rfl, hfind⟩
  · rename_i hfind
    split at h
    · rename_i d' hfac
      simp only [Except.ok.injEq, Prod.mk.injEq] at h
      obtain ⟨h1, h2⟩ := h
      subst h1
      subst h2
      refine ⟨rfl, rfl, ?_⟩
      simp [cacheInsert, cacheFind]
    · exact absurd h (by simp)

theorem getDefaultGraphOptions_cached (pm : ProfileManager) (base : GraphBaseOptions)
    (drp : Option Nat) (p : ExecutionProfile) (d : DefaultGraphOptions)
    (h : cacheFind pm.graphOptionsCache p = some d) :
    getDefaultGraphOptions pm base drp p = .ok (d, pm) := by
  unfold getDefaultGraphOptions getOrCreateGraphOptions
  simp [h]

theorem getProfile_congr (pm1 pm : ProfileManager) (n : Option String)
    (hp : pm1.profiles = pm.profiles) (hd : pm1.defaultProfile = pm.defaultProfile) :
    pm1.getProfile n = pm.getProfile n := by
  unfold ProfileManager.getProfile
  cases n <;> simp [hp, hd]

/-! ## C3: fast-path payload reuse and default-set return -/

/-- C3: with no options object (or only a callback), `createQueryOptions`
returns the cached per-profile default option set itself; and with an
options object carrying none of the eight payload-relevant fields, the
merged result carries the cached default payload unchanged, and a second
identical call returns the very same result and state (no clone, no
re-encoding, no recomputation). -/
theorem c3_default_payload_reuse (pm : ProfileManager) (base : GraphBaseOptions) (drp : Option Nat)
    (o : GraphQueryOptions) (p : ExecutionProfile) (d : DefaultGraphOptions) (pm1 : ProfileManager)
    (hcp : o.customPayload = .undef) (hgl : o.graphLanguage = .undef)
    (hgs : o.graphSource = .undef) (hea : o.executeAs = .undef)
    (hgn : o.graphName = .undef) (hrc : o.graphReadConsistency = .undef)
    (hwc : o.graphWriteConsistency = .undef) (hrt : o.readTimeout = .undef)
    (hp : pm.getProfile o.executionProfile = some p)
    (hd : getDefaultGraphOptions pm base drp p = .ok (d, pm1)) :
    payloadOfResult (createQueryOptions pm base drp (.opts o)) = some d.customPayload ∧
    stateOfResult (createQueryOptions pm base drp (.opts o)) = some pm1 ∧
    createQueryOptions pm1 base drp (.opts o) = createQueryOptions pm base drp (.opts o) ∧
    (∀ d2 pm2, getDefaultGraphOptions pm base drp pm.defaultProfile = .ok (d2, pm2) →
      createQueryOptions pm base drp OptionsArg.none = .ok (.profileDefaults d2, pm2) ∧
      createQueryOptions pm base drp OptionsArg.callback = .ok (.profileDefaults d2, pm2)) := by
  have hflag : noGraphPayloadOptions o = true := by
    simp [noGraphPayloadOptions, hcp, hgl, hgs, hea, hgn, hrc, hwc, hrt, TriVal.isUndef,
          TriVal.truthyObj, TriVal.truthyStr]
  obtain ⟨hpr, hdf, hcf⟩ := getDefaultGraphOptions_ok pm base drp p d pm1 hd
  have hp1 : pm1.getProfile o.executionProfile = some p :=
    (getProfile_congr pm1 pm o.executionProfile hpr hdf).trans hp
  have hd1 : getDefaultGraphOptions pm1 base drp p = .ok (d, pm1) :=
    getDefaultGraphOptions_cached pm1 base drp p d hcf
  refine ⟨?_, ?_, ?_, ?_⟩
  · simp [createQueryOptions, OptionsArg.profileName, hp, hd, mergeWithDefaults, hflag,
          payloadOfResult, ResolvedOptions.payloadOf]
  · simp [createQueryOptions, OptionsArg.profileName, hp, hd, mergeWithDefaults, hflag,
          stateOfResult]
  · simp [createQueryOptions, OptionsArg.profileName, hp, hp1, hd, hd1]
  · intro d2 pm2 h2
    constructor <;>
      simp [createQueryOptions, OptionsArg.profileName, ProfileManager.getProfile, h2,
            mergeWithDefaults]

/-- Witness for C3 at a concrete profile manager: the resolved payload is
the cached default payload and the second call coincides with the first. -/
theorem c3_default_payload_reuse_witness :
    getDefaultGraphOptions fixturePM fixtureBase Option.none fixtureProfile =
      .ok (fixtureDefaults, fixturePMCached) ∧
    payloadOfResult (createQueryOptions fixturePM fixtureBase Option.none
        (.opts { retry := .val 3 })) = some fixtureDefaults.customPayload ∧
    createQueryOptions fixturePMCached fixtureBase Option.none (.opts { retry := .val 3 }) =
      createQueryOptions fixturePM fixtureBase Option.none (.opts { retry := .val 3 }) :=
  ⟨by decide,
   (c3_default_payload_reuse fixturePM fixtureBase Option.none { retry := .val 3 } fixtureProfile
      fixtureDefaults fixturePMCached rfl rfl rfl rfl rfl rfl rfl rfl (by decide) (by decide)).1,
   (c3_default_payload_reuse fixturePM fixtureBase Option.none { retry := .val 3 } fixtureProfile
      fixtureDefaults fixturePMCached rfl rfl rfl rfl rfl rfl rfl rfl (by decide) (by decide)).2.2.1⟩

/-! ## Registry lemmas and state-projection characterization -/

theorem nget_mem {l : List (Nat × String)} {c : Nat} {s : String}
    (h : nget l c = some s) : (c, s) ∈ l := by
  induction l with
  | nil => simp [nget] at h
  | cons e rest ih =>
    simp only [nget] at h
    split at h
    · rename_i he
      simp only [Option.some.injEq] at h
      subst h
      rw [← he]
      exact List.mem_cons_self _ _
    · exact List.mem_cons_of_mem e (ih h)

theorem consistencyNames_eval :
    consistencyNames = [(0, "ANY"), (1, "ONE"), (2, "TWO"), (3, "THREE"), (4, "QUORUM"), (5, "ALL"),
      (6, "LOCAL_QUORUM"), (7, "EACH_QUORUM"), (8, "SERIAL"), (9, "LOCAL_SERIAL"),
      (10, "LOCAL_ONE")] := by decide

theorem consistencyNames_no_empty (c : Nat) (s : String)
    (h : nget consistencyNames c = some s) : s ≠ "" := by
  have hm := nget_mem h
  rw [consistencyNames_eval] at hm
  simp only [List.mem_cons, List.not_mem_nil, or_false, Prod.mk.injEq] at hm
  rcases hm with ⟨_, rfl⟩|⟨_, rfl⟩|⟨_, rfl⟩|⟨_, rfl⟩|⟨_, rfl⟩|⟨_, rfl⟩|⟨_, rfl⟩|⟨_, rfl⟩|⟨_, rfl⟩|⟨_, rfl⟩|⟨_, rfl⟩ <;> decide

theorem resolvedOf_cqo (pm : ProfileManager) (base : GraphBaseOptions) (drp : Option Nat)
    (o2 : OptionsArg) :
    resolvedOf (createQueryOptions pm base drp o2) =
      match pm.getProfile o2.profileName with
      | Option.none => .ok (.userUnchanged o2)
      | some q =>
        match (match cacheFind pm.graphOptionsCache q with
               | some dq => Except.ok dq
               | Option.none => createDefaultOptions pm base drp q) with
        | .error e => .error e
        | .ok dq => mergeWithDefaults dq o2 := by
  cases hgp : pm.getProfile o2.profileName with
  | none => simp [createQueryOptions, hgp, resolvedOf]
  | some q =>
    cases hcf : cacheFind pm.graphOptionsCache q with
    | some dq =>
      have hd : getDefaultGraphOptions pm base drp q = .ok (dq, pm) :=
        getDefaultGraphOptions_cached pm base drp q dq hcf
      cases hm : mergeWithDefaults dq o2 with
      | error e => simp [createQueryOptions, hgp, hcf, hd, hm, resolvedOf]
      | ok r => simp [createQueryOptions, hgp, hcf, hd, hm, resolvedOf]
    | none =>
      cases hfac : createDefaultOptions pm base drp q with
      | error e =>
        have hd : getDefaultGraphOptions pm base drp q = .error e := by
          unfold getDefaultGraphOptions getOrCreateGraphOptions
          simp [hcf, hfac]
        simp [createQueryOptions, hgp, hcf, hfac, hd, resolvedOf]
      | ok dq =>
        have hd : getDefaultGraphOptions pm base drp q = .ok (dq, cacheInsert pm q dq) := by
          unfold getDefaultGraphOptions getOrCreateGraphOptions
          simp [hcf, hfac]
        cases hm : mergeWithDefaults dq o2 with
        | error e => simp [createQueryOptions, hgp, hcf, hfac, hd, hm, resolvedOf]
        | ok r => simp [createQueryOptions, hgp, hcf, hfac, hd, hm, resolvedOf]

theorem createDefaultOptions_cacheInsert (pm : ProfileManager) (base : GraphBaseOptions)
    (drp : Option Nat) (p q : ExecutionProfile) (d : DefaultGraphOptions) :
    createDefaultOptions (cacheInsert pm p d) base drp q = createDefaultOptions pm base drp q := rfl

theorem resolvedOf_cqo_cacheInsert (pm : ProfileManager) (base : GraphBaseOptions)
    (drp : Option Nat) (p : ExecutionProfile) (d : DefaultGraphOptions)
    (hmiss : cacheFind pm.graphOptionsCache p = Option.none)
    (hfac : createDefaultOptions pm base drp p = .ok d) (o2 : OptionsArg) :
    resolvedOf (createQueryOptions (cacheInsert pm p d) base drp o2) =
      resolvedOf (createQueryOptions pm base drp o2) := by
  rw [resolvedOf_cqo, resolvedOf_cqo]
  have hgp : (cacheInsert pm p d).getProfile o2.profileName = pm.getProfile o2.profileName := rfl
  rw [hgp]
  cases hq : pm.getProfile o2.profileName with
  | none => rfl
  | some q =>
    by_cases hpq : p = q
    · subst hpq
      simp [cacheInsert, cacheFind, hmiss, hfac]
    · have hcf : cacheFind (cacheInsert pm p d).graphOptionsCache q =
          cacheFind pm.graphOptionsCache q := by
        simp [cacheInsert, cacheFind, hpq]
      simp only [hcf, createDefaultOptions_cacheInsert]

theorem getDefaultGraphOptions_cases (pm : ProfileManager) (base : GraphBaseOptions)
    (drp : Option Nat) (p : ExecutionProfile) (d : DefaultGraphOptions) (pm1 : ProfileManager)
    (h : getDefaultGraphOptions pm base drp p = .ok (d, pm1)) :
    pm1 = pm ∨ (cacheFind pm.graphOptionsCache p = Option.none ∧
                createDefaultOptions pm base drp p = .ok d ∧ pm1 = cacheInsert pm p d) := by
  unfold getDefaultGraphOptions getOrCreateGraphOptions at h
  split at h
  · simp only [Except.ok.injEq, Prod.mk.injEq] at h
    exact Or.inl h.2.symm
  · rename_i hfind
    split at h
    · rename_i d' hfac
      simp only [Except.ok.injEq, Prod.mk.injEq] at h
      obtain ⟨h1, h2⟩ := h
      subst h1
      exact Or.inr ⟨hfind, hfac, h2.symm⟩
    · exact absurd h (by simp)

/-! ## C7: the unknown-consistency error -/

/-- C7: `getConsistencyName` throws exactly for a defined code with no
registered name (both no-value sentinels are returned without error); the
error propagates synchronously out of `createQueryOptions` as the result
of the merge; and the subsequent observable behavior of the merge for any
later call is exactly what it would have been without the failing call —
the cache slot is either untouched or holds precisely the value a
successful computation stores, and the (stateless, lazily built)
consistency-name table is a fixed registry. -/
theorem c7_unknown_consistency_error (pm : ProfileManager) (base : GraphBaseOptions)
    (drp : Option Nat) (o : GraphQueryOptions) (c : Nat) (p : ExecutionProfile)
    (d : DefaultGraphOptions) (pm1 : ProfileManager)
    (hrcv : o.graphReadConsistency = .val c)
    (hunk : nget consistencyNames c = Option.none)
    (hp : pm.getProfile o.executionProfile = some p)
    (hd : getDefaultGraphOptions pm base drp p = .ok (d, pm1)) :
    (∀ c' : Nat, (∃ e, getConsistencyName (.val c') = .error e) ↔
        nget consistencyNames c' = Option.none) ∧
    getConsistencyName .undef = .ok .undef ∧
    getConsistencyName .null = .ok .undef ∧
    (∃ e, createQueryOptions pm base drp (.opts o) = .error (e, pm1)) ∧
    (∀ o2, resolvedOf (createQueryOptions pm1 base drp o2) =
        resolvedOf (createQueryOptions pm base drp o2)) := by
  refine ⟨?_, rfl, rfl, ?_, ?_⟩
  · intro c'
    constructor
    · rintro ⟨e, he⟩
      cases hn : nget consistencyNames c' with
      | none => rfl
      | some s =>
        have hne := consistencyNames_no_empty c' s hn
        simp [getConsistencyName, hn, hne] at he
    · intro hn
      refine ⟨"Consistency " ++ toString c' ++ " not found, use values defined as properties in types.consistencies object", ?_⟩
      simp [getConsistencyName, hn]
  · have hflag : noGraphPayloadOptions o = false := by
      simp [noGraphPayloadOptions, hrcv, TriVal.isUndef]
    refine ⟨"Consistency " ++ toString c ++ " not found, use values defined as properties in types.consistencies object", ?_⟩
    simp [createQueryOptions, OptionsArg.profileName, hp, hd, mergeWithDefaults, hflag,
          extendWithDefaults, hrcv, getConsistencyName, hunk]
  · rcases getDefaultGraphOptions_cases pm base drp p d pm1 hd with h1 | ⟨hmiss, hfac, hins⟩
    · subst h1
      intro o2
      rfl
    · subst hins
      exact resolvedOf_cqo_cacheInsert pm base drp p d hmiss hfac

/-- Witness for C7 at the unregistered code 99. -/
theorem c7_unknown_consistency_error_witness :
    ({ graphReadConsistency := .val 99 } : GraphQueryOptions).graphReadConsistency =
      TriVal.val 99 ∧
    nget consistencyNames 99 = Option.none ∧
    (∃ e, createQueryOptions fixturePM fixtureBase Option.none
        (.opts { graphReadConsistency := .val 99 }) = .error (e, fixturePMCached)) :=
  ⟨rfl, by decide,
   (c7_unknown_consistency_error fixturePM fixtureBase Option.none
      { graphReadConsistency := .val 99 } 99 fixtureProfile fixtureDefaults fixturePMCached
      rfl (by decide) (by decide) (by decide)).2.2.2.1⟩

/-! ## Payload lemmas for the default-options factory -/

theorem pget_psetIfTruthy_ne (payload : Payload) (key k : String) (x : TriVal String)
    (h : k ≠ key) : pget (psetIfTruthy payload key x) k = pget payload k := by
  cases x with
  | val s =>
    by_cases hs : s = ""
    · simp [psetIfTruthy, hs]
    · simp [psetIfTruthy, hs, pget_pset_ne _ _ _ _ h]
  | undef => rfl
  | null => rfl

theorem psetConsistency_ok_pget_ne (payload payload2 : Payload) (key k : String) (c : TriVal Nat)
    (hok : psetConsistency payload key c = .ok payload2) (h : k ≠ key) :
    pget payload2 k = pget payload k := by
  unfold psetConsistency at hok
  split at hok
  · simp only [Except.ok.injEq] at hok
    subst hok
    rfl
  · split at hok
    · exact absurd hok (by simp)
    · simp only [Except.ok.injEq] at hok
      subst hok
      exact pget_pset_ne _ _ _ _ h
    · exact absurd hok (by simp)

theorem pget_psetPositiveTimeout_self (payload : Payload) (rt : TriVal Int) :
    pget (psetPositiveTimeout payload rt) "request-timeout" =
      (match rt with
       | .val n => if n > 0 then some (longBuffer n) else pget payload "request-timeout"
       | _ => pget payload "request-timeout") := by
  cases rt with
  | val n =>
    by_cases hn : n > 0
    · simp [psetPositiveTimeout, hn, pget_pset_self]
    · simp [psetPositiveTimeout, hn]
  | undef => rfl
  | null => rfl

theorem pget_psetPositiveTimeout_ne (payload : Payload) (rt : TriVal Int) (k : String)
    (h : k ≠ "request-timeout") :
    pget (psetPositiveTimeout payload rt) k = pget payload k := by
  cases rt with
  | val n =>
    by_cases hn : n > 0
    · simp [psetPositiveTimeout, hn, pget_pset_ne _ _ _ _ h]
    · simp [psetPositiveTimeout, hn]
  | undef => rfl
  | null => rfl

theorem createDefaultOptions_rt (pm : ProfileManager) (base : GraphBaseOptions) (drp : Option Nat)
    (p : ExecutionProfile) (d : DefaultGraphOptions)
    (h : createDefaultOptions pm base drp p = .ok d) :
    pget d.customPayload "request-timeout" =
      (match d.readTimeout with
       | .val n => if n > 0 then some (longBuffer n) else Option.none
       | _ => Option.none) := by
  simp only [createDefaultOptions] at h
  split at h
  · exact absurd h (by simp)
  · rename_i payload1 hrc
    split at h
    · exact absurd h (by simp)
    · rename_i payload2 hwc
      simp only [Except.ok.injEq] at h
      subst h
      have h1 : pget payload2 "request-timeout" = Option.none := by
        rw [psetConsistency_ok_pget_ne _ _ _ _ _ hwc (by decide),
            psetConsistency_ok_pget_ne _ _ _ _ _ hrc (by decide),
            pget_psetIfTruthy_ne _ _ _ _ (by decide),
            pget_psetIfTruthy_ne _ _ _ _ (by decide)]
        simp [pget]
      rw [pget_psetPositiveTimeout_self, h1]

theorem createDefaultOptions_language (pm : ProfileManager) (base : GraphBaseOptions)
    (drp : Option Nat) (p : ExecutionProfile) (d : DefaultGraphOptions)
    (h : createDefaultOptions pm base drp p = .ok d) :
    pget d.customPayload "graph-language" = some (allocBufferFromString d.graphLanguage) ∧
    pget d.customPayload "graph-source" = some (allocBufferFromString d.graphSource) := by
  simp only [createDefaultOptions] at h
  split at h
  · exact absurd h (by simp)
  · rename_i payload1 hrc
    split at h
    · exact absurd h (by simp)
    · rename_i payload2 hwc
      simp only [Except.ok.injEq] at h
      subst h
      constructor <;>
      · rw [pget_psetPositiveTimeout_ne _ _ _ (by decide),
            psetConsistency_ok_pget_ne _ _ _ _ _ hwc (by decide),
            psetConsistency_ok_pget_ne _ _ _ _ _ hrc (by decide),
            pget_psetIfTruthy_ne _ _ _ _ (by decide),
            pget_psetIfTruthy_ne _ _ _ _ (by decide)]
        simp [pget]

/-! ## Rebuild-payload lemmas -/

theorem setPayloadKey_pget_self {α : Type} (t d : Payload) (key : String)
    (v : TriVal α) (conv : α → Buffer) :
    pget (setPayloadKey t d key v conv) key =
      (match v with
       | .null => pget t key
       | .val a => some (conv a)
       | .undef =>
         match pget d key with
         | some b => some b
         | Option.none => pget t key) := by
  cases v with
  | null => rfl
  | val a => simp [setPayloadKey, pget_pset_self]
  | undef =>
    unfold setPayloadKey
    cases hd : pget d key with
    | none => rfl
    | some b => simp [pget_pset_self]

theorem pget_rebuildPayload_rt (d : DefaultGraphOptions) (o : GraphQueryOptions)
    (rcName wcName : TriVal String) :
    pget (rebuildPayload d o rcName wcName) "request-timeout" =
      (match (extendWithDefaults d o).readTimeout with
       | .val n => if n > 0 then some (longBuffer n) else pget (userPayloadStart o) "request-timeout"
       | _ => pget (userPayloadStart o) "request-timeout") := by
  simp only [rebuildPayload]
  rw [setPayloadKey_pget_self]
  rw [setPayloadKey_pget_other _ _ _ _ _ _ (by decide)]
  rw [setPayloadKey_pget_other _ _ _ _ _ _ (by decide)]
  rw [setPayloadKey_pget_other _ _ _ _ _ _ (by decide)]
  rw [setPayloadKey_pget_other _ _ _ _ _ _ (by decide)]
  rw [setPayloadKey_pget_other _ _ _ _ _ _ (by decide)]
  rw [setPayloadKey_pget_other _ _ _ _ _ _ (by decide)]
  cases hm : (extendWithDefaults d o).readTimeout with
  | val n => by_cases hn : n > 0 <;> simp [hn]
  | undef => rfl
  | null => rfl

theorem pget_rebuildPayload_language (d : DefaultGraphOptions) (o : GraphQueryOptions)
    (rcName wcName : TriVal String) (s : String)
    (h : (extendWithDefaults d o).graphLanguage = TriVal.val s) :
    pget (rebuildPayload d o rcName wcName) "graph-language" = some (allocBufferFromString s) := by
  simp only [rebuildPayload]
  rw [setPayloadKey_pget_other _ _ _ _ _ _ (by decide)]
  rw [setPayloadKey_pget_other _ _ _ _ _ _ (by decide)]
  rw [setPayloadKey_pget_other _ _ _ _ _ _ (by decide)]
  rw [setPayloadKey_pget_other _ _ _ _ _ _ (by decide)]
  rw [setPayloadKey_pget_other _ _ _ _ _ _ (by decide)]
  rw [h]
  simp [setPayloadKey, pget_pset_self]

theorem pget_rebuildPayload_source (d : DefaultGraphOptions) (o : GraphQueryOptions)
    (rcName wcName : TriVal String) (s : String)
    (h : (extendWithDefaults d o).graphSource = TriVal.val s) :
    pget (rebuildPayload d o rcName wcName) "graph-source" = some (allocBufferFromString s) := by
  simp only [rebuildPayload]
  rw [setPayloadKey_pget_other _ _ _ _ _ _ (by decide)]
  rw [setPayloadKey_pget_other _ _ _ _ _ _ (by decide)]
  rw [setPayloadKey_pget_other _ _ _ _ _ _ (by decide)]
  rw [setPayloadKey_pget_other _ _ _ _ _ _ (by decide)]
  rw [h]
  simp [setPayloadKey, pget_pset_self]

theorem getDefaultGraphOptions_ok_value (pm : ProfileManager) (base : GraphBaseOptions)
    (drp : Option Nat) (p : ExecutionProfile) (d : DefaultGraphOptions) (pm1 : ProfileManager)
    (h : getDefaultGraphOptions pm base drp p = .ok (d, pm1))
    (hcc : CacheConsistent pm base drp) :
    createDefaultOptions pm base drp p = .ok d := by
  unfold getDefaultGraphOptions getOrCreateGraphOptions at h
  split at h
  · rename_i d' hfind
    simp only [Except.ok.injEq, Prod.mk.injEq] at h
    obtain ⟨h1, h2⟩ := h
    subst h1
    exact hcc p d' hfind
  · split at h
    · rename_i d' hfac
      simp only [Except.ok.injEq, Prod.mk.injEq] at h
      obtain ⟨h1, h2⟩ := h
      subst h1
      exact hfac
    · exact absurd h (by simp)

theorem cqo_ok_defaults (pm : ProfileManager) (base : GraphBaseOptions) (drp : Option Nat)
    (a : OptionsArg) (r : ResolvedOptions) (pm1 : ProfileManager)
    (hcq : createQueryOptions pm base drp a = .ok (r, pm1))
    (hcc : CacheConsistent pm base drp) :
    r = .userUnchanged a ∨
    ∃ q dq, pm.getProfile a.profileName = some q ∧
      createDefaultOptions pm base drp q = .ok dq ∧ mergeWithDefaults dq a = .ok r := by
  unfold createQueryOptions at hcq
  split at hcq
  · simp only [Except.ok.injEq, Prod.mk.injEq] at hcq
    exact Or.inl hcq.1.symm
  · rename_i q hq
    split at hcq
    · exact absurd hcq (by simp)
    · rename_i dq pmx hd
      split at hcq
      · exact absurd hcq (by simp)
      · rename_i r' hm
        simp only [Except.ok.injEq, Prod.mk.injEq] at hcq
        obtain ⟨h1, h2⟩ := hcq
        subst h1
        exact Or.inr ⟨q, dq, hq, getDefaultGraphOptions_ok_value pm base drp q dq pmx hd hcc, hm⟩

theorem noGraphPayloadOptions_readTimeout_undef (o : GraphQueryOptions)
    (h : noGraphPayloadOptions o = true) : o.readTimeout = TriVal.undef := by
  simp only [noGraphPayloadOptions, Bool.and_eq_true] at h
  have h8 := h.2
  cases hrt : o.readTimeout <;> simp [hrt, TriVal.isUndef] at h8 ⊢

/-! ## C8 amended: the request-timeout key -/

/-- C8 as amended: provided the caller-supplied custom payload does not
itself already carry a `request-timeout` entry (the counterexample shows a
pre-existing entry survives a non-positive timeout), every produced result
holds the key exactly when the resolved readTimeout is a strictly positive
number, with the value encoded by `longBuffer`; and the 8-byte big-endian
encoding of 5000 decodes back to the 64-bit integer 5000. -/
theorem c8_amended_request_timeout (pm : ProfileManager) (base : GraphBaseOptions) (drp : Option Nat)
    (a : OptionsArg) (r : ResolvedOptions) (pm1 : ProfileManager)
    (hcq : createQueryOptions pm base drp a = .ok (r, pm1))
    (hup : ∀ o pl, a = .opts o → o.customPayload = TriVal.val pl →
      pget pl "request-timeout" = Option.none)
    (hcc : CacheConsistent pm base drp) :
    (∀ P, r.payloadOf = some P →
       pget P "request-timeout" =
         (match r.readTimeoutOf with
          | .val n => if n > 0 then some (longBuffer n) else Option.none
          | _ => Option.none)) ∧
    decodeInt64BE (longBuffer 5000) = some 5000 := by
  refine ⟨?_, by decide⟩
  intro P hP
  rcases cqo_ok_defaults pm base drp a r pm1 hcq hcc with hr | ⟨q, dq, hq, hfac, hm⟩
  · subst hr
    simp [ResolvedOptions.payloadOf] at hP
  · cases a with
    | none =>
      simp only [mergeWithDefaults, Except.ok.injEq] at hm
      subst hm
      simp only [ResolvedOptions.payloadOf, Option.some.injEq] at hP
      subst hP
      simp only [ResolvedOptions.readTimeoutOf]
      exact createDefaultOptions_rt pm base drp q dq hfac
    | callback =>
      simp only [mergeWithDefaults, Except.ok.injEq] at hm
      subst hm
      simp only [ResolvedOptions.payloadOf, Option.some.injEq] at hP
      subst hP
      simp only [ResolvedOptions.readTimeoutOf]
      exact createDefaultOptions_rt pm base drp q dq hfac
    | opts o =>
      cases hflag : noGraphPayloadOptions o with
      | true =>
        have hrt := noGraphPayloadOptions_readTimeout_undef o hflag
        simp only [mergeWithDefaults, hflag, if_true, Except.ok.injEq] at hm
        subst hm
        simp only [ResolvedOptions.payloadOf, Option.some.injEq] at hP
        subst hP
        simp only [ResolvedOptions.readTimeoutOf, extendWithDefaults, hrt, ifUndefined]
        exact createDefaultOptions_rt pm base drp q dq hfac
      | false =>
        simp only [mergeWithDefaults, hflag, Bool.false_eq_true, if_false] at hm
        split at hm
        · exact absurd hm (by simp)
        · rename_i rcName hrc
          split at hm
          · exact absurd hm (by simp)
          · rename_i wcName hwc
            simp only [Except.ok.injEq] at hm
            subst hm
            simp only [ResolvedOptions.payloadOf, Option.some.injEq] at hP
            subst hP
            simp only [ResolvedOptions.readTimeoutOf]
            rw [pget_rebuildPayload_rt]
            have hstart : pget (userPayloadStart o) "request-timeout" = Option.none := by
              cases hcp : o.customPayload with
              | val pl => simpa [userPayloadStart, hcp] using hup o pl rfl hcp
              | undef => simp [userPayloadStart, hcp, pget]
              | null => simp [userPayloadStart, hcp, pget]
            rw [hstart]

/-- Base options that also configure a strictly positive read timeout. -/
def fixtureBaseRT : GraphBaseOptions :=
  { fixtureBase with readTimeout := .val 5000 }

/-- The default option set computed for the fixture profile over
`fixtureBaseRT`: the payload carries the encoded request timeout. -/
def fixtureDefaultsRT : DefaultGraphOptions :=
  { customPayload := [("graph-language", Buffer.utf8 "gremlin-groovy"),
                      ("graph-source", Buffer.utf8 "g"),
                      ("request-timeout", longBuffer 5000)],
    graphLanguage := "gremlin-groovy", graphSource := "g",
    retry := Option.none, readTimeout := .val 5000 }

/-- The fixture profile manager with the cache slot filled over
`fixtureBaseRT`. -/
def fixturePMCachedRT : ProfileManager :=
  { fixturePM with graphOptionsCache := [(fixtureProfile, fixtureDefaultsRT)] }

/-- Witness for the amended C8 at a concrete call with a resolved read
timeout of 5000 milliseconds. -/
theorem c8_amended_request_timeout_witness :
    createQueryOptions fixturePM fixtureBaseRT Option.none OptionsArg.none =
      .ok (.profileDefaults fixtureDefaultsRT, fixturePMCachedRT) ∧
    pget fixtureDefaultsRT.customPayload "request-timeout" =
      (match (ResolvedOptions.profileDefaults fixtureDefaultsRT).readTimeoutOf with
       | .val n => if n > 0 then some (longBuffer n) else Option.none
       | _ => Option.none) :=
  ⟨by decide,
   (c8_amended_request_timeout fixturePM fixtureBaseRT Option.none OptionsArg.none
      (.profileDefaults fixtureDefaultsRT) fixturePMCachedRT (by decide)
      (fun _ _ h => nomatch h)
      (by intro q dq h; simp [fixturePM, cacheFind] at h)).1
     fixtureDefaultsRT.customPayload rfl⟩

/-! ## C9 amended: graph-language and graph-source presence -/

/-- C9 as amended: for every produced result (a profile was found), the
final payload carries the graph-language and graph-source keys — inherited
or overridden — unless the caller explicitly passed the `null` sentinel
for that field (the counterexample shows an explicit `null` together with
another override removes the key). -/
theorem c9_amended_language_source_present (pm : ProfileManager) (base : GraphBaseOptions)
    (drp : Option Nat) (a : OptionsArg) (r : ResolvedOptions) (pm1 : ProfileManager)
    (hcq : createQueryOptions pm base drp a = .ok (r, pm1))
    (hl : ∀ o, a = .opts o → o.graphLanguage ≠ TriVal.null)
    (hs : ∀ o, a = .opts o → o.graphSource ≠ TriVal.null)
    (hcc : CacheConsistent pm base drp) :
    ∀ P, r.payloadOf = some P →
      (pget P "graph-language").isSome = true ∧ (pget P "graph-source").isSome = true := by
  intro P hP
  rcases cqo_ok_defaults pm base drp a r pm1 hcq hcc with hr | ⟨q, dq, hq, hfac, hm⟩
  · subst hr
    simp [ResolvedOptions.payloadOf] at hP
  · cases a with
    | none =>
      simp only [mergeWithDefaults, Except.ok.injEq] at hm
      subst hm
      simp only [ResolvedOptions.payloadOf, Option.some.injEq] at hP
      subst hP
      obtain ⟨hlg, hsg⟩ := createDefaultOptions_language pm base drp q dq hfac
      exact ⟨by simp [hlg], by simp [hsg]⟩
    | callback =>
      simp only [mergeWithDefaults, Except.ok.injEq] at hm
      subst hm
      simp only [ResolvedOptions.payloadOf, Option.some.injEq] at hP
      subst hP
      obtain ⟨hlg, hsg⟩ := createDefaultOptions_language pm base drp q dq hfac
      exact ⟨by simp [hlg], by simp [hsg]⟩
    | opts o =>
      cases hflag : noGraphPayloadOptions o with
      | true =>
        simp only [mergeWithDefaults, hflag, if_true, Except.ok.injEq] at hm
        subst hm
        simp only [ResolvedOptions.payloadOf, Option.some.injEq] at hP
        subst hP
        obtain ⟨hlg, hsg⟩ := createDefaultOptions_language pm base drp q dq hfac
        exact ⟨by simp [hlg], by simp [hsg]⟩
      | false =>
        simp only [mergeWithDefaults, hflag, Bool.false_eq_true, if_false] at hm
        split at hm
        · exact absurd hm (by simp)
        · rename_i rcName hrc
          split at hm
          · exact absurd hm (by simp)
          · rename_i wcName hwc
            simp only [Except.ok.injEq] at hm
            subst hm
            simp only [ResolvedOptions.payloadOf, Option.some.injEq] at hP
            subst hP
            have hlv : ∃ s, (extendWithDefaults dq o).graphLanguage = TriVal.val s := by
              cases hgl : o.graphLanguage with
              | null => exact absurd hgl (hl o rfl)
              | undef => exact ⟨dq.graphLanguage, by simp [extendWithDefaults, hgl, ifUndefined]⟩
              | val s => exact ⟨s, by simp [extendWithDefaults, hgl, ifUndefined]⟩
            have hsv : ∃ s, (extendWithDefaults dq o).graphSource = TriVal.val s := by
              cases hgs : o.graphSource with
              | null => exact absurd hgs (hs o rfl)
              | undef => exact ⟨dq.graphSource, by simp [extendWithDefaults, hgs, ifUndefined]⟩
              | val s => exact ⟨s, by simp [extendWithDefaults, hgs, ifUndefined]⟩
            obtain ⟨s1, h1⟩ := hlv
            obtain ⟨s2, h2⟩ := hsv
            rw [pget_rebuildPayload_language _ _ _ _ _ h1, pget_rebuildPayload_source _ _ _ _ _ h2]
            exact ⟨rfl, rfl⟩

/-- Witness for the amended C9 at a concrete zero-override call. -/
theorem c9_amended_language_source_present_witness :
    createQueryOptions fixturePM fixtureBase Option.none OptionsArg.none =
      .ok (.profileDefaults fixtureDefaults, fixturePMCached) ∧
    (pget fixtureDefaults.customPayload "graph-language").isSome = true ∧
    (pget fixtureDefaults.customPayload "graph-source").isSome = true :=
  ⟨by decide,
   (c9_amended_language_source_present fixturePM fixtureBase Option.none OptionsArg.none
      (.profileDefaults fixtureDefaults) fixturePMCached (by decide)
      (fun _ h => nomatch h) (fun _ h => nomatch h)
      (by intro q dq h; simp [fixturePM, cacheFind] at h))
     fixtureDefaults.customPayload rfl⟩

/-! ## C10: object identity heap -/

/-- Read the object a reference denotes in a heap list (empty payload for
a dangling reference). -/
def hread : List (Nat × Payload) → Nat → Payload
  | [], _ => []
  | e :: rest, r => if e.1 = r then e.2 else hread rest r

/-- Overwrite the object a reference denotes in a heap list. -/
def hwrite : List (Nat × Payload) → Nat → Payload → List (Nat × Payload)
  | [], _, _ => []
  | e :: rest, r, p => if e.1 = r then (r, p) :: rest else e :: hwrite rest r p

/-- Whether a heap list holds an object for a reference. -/
def hasRefL : List (Nat × Payload) → Nat → Bool
  | [], _ => false
  | e :: rest, r => if e.1 = r then true else hasRefL rest r

/-- A heap of payload objects, modelling JavaScript object identity for
the no-mutation frame claim: references are allocation indices, and fresh
allocations take the next unused index. -/
structure PayloadHeap where
  objs : List (Nat × Payload)
  next : Nat
deriving DecidableEq, Repr

/-- Read through a reference. -/
def PayloadHeap.read (h : PayloadHeap) (r : Nat) : Payload :=
  hread h.objs r

/-- Write through a reference (mutating the object it denotes). -/
def PayloadHeap.write (h : PayloadHeap) (r : Nat) (p : Payload) : PayloadHeap :=
  { h with objs := hwrite h.objs r p }

/-- Allocate a fresh object, returning its reference and the new heap. -/
def PayloadHeap.alloc (h : PayloadHeap) (p : Payload) : Nat × PayloadHeap :=
  (h.next, { objs := (h.next, p) :: h.objs, next := h.next + 1 })

/-- Whether the heap holds an object for a reference. -/
def PayloadHeap.hasRef (h : PayloadHeap) (r : Nat) : Bool :=
  hasRefL h.objs r

/-- The `setPayloadKey` mutation acting through a reference: the object
the target reference denotes is updated with the pure three-way key
policy; nothing else changes. -/
def setPayloadKeyRef {α : Type} (h : PayloadHeap) (target : Nat) (defaults : Payload)
    (key : String) (value : TriVal α) (converter : α → Buffer) : PayloadHeap :=
  h.write target (setPayloadKey (h.read target) defaults key value converter)

/-- Lines 101-119 of the source with object identity made explicit: the
rebuild path first binds the working payload object — a fresh empty
object when the caller passed no (truthy) custom payload, else a fresh
shallow clone (utils.extend of an empty object over the user payload) of
the object the caller passed — and the seven `setPayloadKey` writes then mutate only
that fresh object. The two consistency names arrive already resolved, as
in `rebuildPayload`. Returns the reference to the built payload and the
final heap. -/
def buildMergedPayloadRef (h : PayloadHeap) (userPayload : Option Nat) (d : DefaultGraphOptions)
    (executeAs graphLanguage graphSource graphName rcName wcName : TriVal String)
    (rtValue : TriVal Int) : Nat × PayloadHeap :=
  let th :=
    match userPayload with
    | Option.none => h.alloc []
    | some r => h.alloc (h.read r)
  let t := th.1
  let h1 := th.2
  let h2 := setPayloadKeyRef h1 t d.customPayload proxyExecuteKey executeAs allocBufferFromString
  let h3 := setPayloadKeyRef h2 t d.customPayload "graph-language" graphLanguage allocBufferFromString
  let h4 := setPayloadKeyRef h3 t d.customPayload "graph-source" graphSource allocBufferFromString
  let h5 := setPayloadKeyRef h4 t d.customPayload "graph-name" graphName allocBufferFromString
  let h6 := setPayloadKeyRef h5 t d.customPayload "graph-read-consistency" rcName allocBufferFromString
  let h7 := setPayloadKeyRef h6 t d.customPayload "graph-write-consistency" wcName allocBufferFromString
  let h8 := setPayloadKeyRef h7 t d.customPayload "request-timeout" rtValue longBuffer
  (t, h8)

theorem hread_hwrite_ne (l : List (Nat × Payload)) (r2 : Nat) (p : Payload) (r : Nat)
    (hne : r ≠ r2) : hread (hwrite l r2 p) r = hread l r := by
  induction l with
  | nil => rfl
  | cons e rest ih =>
    by_cases he : e.1 = r2
    · have h2 : ¬ (r2 = r) := fun hh => hne hh.symm
      simp [hwrite, hread, he, h2]
    · simp [hwrite, hread, he, ih]

theorem hread_hwrite_self (l : List (Nat × Payload)) (r : Nat) (p : Payload)
    (hpres : hasRefL l r = true) : hread (hwrite l r p) r = p := by
  induction l with
  | nil => simp [hasRefL] at hpres
  | cons e rest ih =>
    by_cases he : e.1 = r
    · simp [hwrite, hread, he]
    · simp only [hasRefL, he, if_false] at hpres
      simp [hwrite, hread, he, ih hpres]

theorem hasRefL_hwrite (l : List (Nat × Payload)) (r2 : Nat) (p : Payload) (r : Nat) :
    hasRefL (hwrite l r2 p) r = hasRefL l r := by
  induction l with
  | nil => rfl
  | cons e rest ih =>
    by_cases he : e.1 = r2
    · by_cases he2 : e.1 = r
      · rw [← he2] at *
        simp [hwrite, hasRefL, he, he2]
      · have : ¬ (r2 = r) := by rw [← he]; exact he2
        simp [hwrite, hasRefL, he, he2, this]
    · simp [hwrite, hasRefL, he, ih]

theorem PayloadHeap.read_write_ne (h : PayloadHeap) (r2 : Nat) (p : Payload) (r : Nat)
    (hne : r ≠ r2) : (h.write r2 p).read r = h.read r :=
  hread_hwrite_ne h.objs r2 p r hne

theorem PayloadHeap.read_write_self (h : PayloadHeap) (r : Nat) (p : Payload)
    (hpres : h.hasRef r = true) : (h.write r p).read r = p :=
  hread_hwrite_self h.objs r p hpres

theorem PayloadHeap.hasRef_write (h : PayloadHeap) (r2 : Nat) (p : Payload) (r : Nat) :
    (h.write r2 p).hasRef r = h.hasRef r :=
  hasRefL_hwrite h.objs r2 p r

theorem PayloadHeap.read_alloc_ne (h : PayloadHeap) (p : Payload) (r : Nat)
    (hr : r ≠ h.next) : ((h.alloc p).2).read r = h.read r := by
  have : ¬ (h.next = r) := fun hh => hr hh.symm
  simp [PayloadHeap.alloc, PayloadHeap.read, hread, this]

theorem PayloadHeap.read_alloc_self (h : PayloadHeap) (p : Payload) :
    ((h.alloc p).2).read h.next = p := by
  simp [PayloadHeap.alloc, PayloadHeap.read, hread]

theorem PayloadHeap.hasRef_alloc_self (h : PayloadHeap) (p : Payload) :
    ((h.alloc p).2).hasRef h.next = true := by
  simp [PayloadHeap.alloc, PayloadHeap.hasRef, hasRefL]

theorem setPayloadKeyRef_read_self {α : Type} (h : PayloadHeap) (t : Nat) (defaults : Payload)
    (key : String) (v : TriVal α) (conv : α → Buffer) (hpres : h.hasRef t = true) :
    (setPayloadKeyRef h t defaults key v conv).read t =
      setPayloadKey (h.read t) defaults key v conv :=
  PayloadHeap.read_write_self h t _ hpres

theorem setPayloadKeyRef_hasRef {α : Type} (h : PayloadHeap) (t : Nat) (defaults : Payload)
    (key : String) (v : TriVal α) (conv : α → Buffer) (r : Nat) :
    (setPayloadKeyRef h t defaults key v conv).hasRef r = h.hasRef r :=
  PayloadHeap.hasRef_write h t _ r

/-- C10: on the rebuilt-payload path the working payload is a fresh
object, so the object the caller passed as customPayload holds exactly the
entries it held before the call; the returned payload reference is
distinct from the caller reference; and the freshly built object carries
exactly the seven-write pure payload over the shallow clone. -/
theorem c10_caller_payload_not_mutated (h : PayloadHeap) (r : Nat) (hr : r < h.next)
    (d : DefaultGraphOptions)
    (executeAs graphLanguage graphSource graphName rcName wcName : TriVal String)
    (rtValue : TriVal Int) :
    ((buildMergedPayloadRef h (some r) d executeAs graphLanguage graphSource graphName
        rcName wcName rtValue).2).read r = h.read r ∧
    (buildMergedPayloadRef h (some r) d executeAs graphLanguage graphSource graphName
        rcName wcName rtValue).1 ≠ r ∧
    ((buildMergedPayloadRef h (some r) d executeAs graphLanguage graphSource graphName
        rcName wcName rtValue).2).read
      (buildMergedPayloadRef h (some r) d executeAs graphLanguage graphSource graphName
        rcName wcName rtValue).1 =
      setPayloadKey (setPayloadKey (setPayloadKey (setPayloadKey (setPayloadKey (setPayloadKey
        (setPayloadKey (h.read r) d.customPayload proxyExecuteKey executeAs allocBufferFromString)
        d.customPayload "graph-language" graphLanguage allocBufferFromString)
        d.customPayload "graph-source" graphSource allocBufferFromString)
        d.customPayload "graph-name" graphName allocBufferFromString)
        d.customPayload "graph-read-consistency" rcName allocBufferFromString)
        d.customPayload "graph-write-consistency" wcName allocBufferFromString)
        d.customPayload "request-timeout" rtValue longBuffer := by
  have hne : r ≠ h.next := Nat.ne_of_lt hr
  have hne2 : r ≠ (h.alloc (h.read r)).1 := hne
  refine ⟨?_, ?_, ?_⟩
  · simp only [buildMergedPayloadRef, setPayloadKeyRef]
    rw [PayloadHeap.read_write_ne _ _ _ _ hne2, PayloadHeap.read_write_ne _ _ _ _ hne2,
        PayloadHeap.read_write_ne _ _ _ _ hne2, PayloadHeap.read_write_ne _ _ _ _ hne2,
        PayloadHeap.read_write_ne _ _ _ _ hne2, PayloadHeap.read_write_ne _ _ _ _ hne2,
        PayloadHeap.read_write_ne _ _ _ _ hne2]
    exact PayloadHeap.read_alloc_ne h (h.read r) r hne
  · simp only [buildMergedPayloadRef]
    exact fun hh => hne hh.symm
  · have halloc1 : ((h.alloc (h.read r)).2).hasRef (h.alloc (h.read r)).1 = true :=
      PayloadHeap.hasRef_alloc_self h (h.read r)
    have halloc0 : ((h.alloc (h.read r)).2).read (h.alloc (h.read r)).1 = h.read r :=
      PayloadHeap.read_alloc_self h (h.read r)
    simp only [buildMergedPayloadRef, setPayloadKeyRef_read_self, setPayloadKeyRef_hasRef,
               halloc1, halloc0]

/-- A concrete heap holding one caller-owned payload object at reference
zero. -/
def fixtureHeap : PayloadHeap :=
  { objs := [(0, [("caller-key", Buffer.utf8 "caller-value")])], next := 1 }

/-- Witness for C10: building the merged payload from the caller object at
reference zero leaves that object unchanged. -/
theorem c10_caller_payload_not_mutated_witness :
    (0 : Nat) < fixtureHeap.next ∧
    ((buildMergedPayloadRef fixtureHeap (some 0) fixtureDefaults .undef
        (.val "gremlin-groovy") (.val "g") .undef .undef .undef (.val 5000)).2).read 0 =
      fixtureHeap.read 0 :=
  ⟨by decide,
   (c10_caller_payload_not_mutated fixtureHeap 0 (by decide) fixtureDefaults .undef
      (.val "gremlin-groovy") (.val "g") .undef .undef .undef (.val 5000)).1⟩
